import Mathlib

/-!
Verification of the daily health summary core of the pulse-backend
repository (`app/services/health_summary_service.py`) against its
natural-language specification.

The service is shallowly embedded as pure Lean functions over an explicit
database state.  Modelling conventions, stated once here:

* Biomarker values are rationals (`ℚ`); the Python floats are treated as
  exact numbers.  `round(x, 2)` is modelled as round-half-to-even at two
  decimal places (`round2`), `int(x)` as truncation toward zero (`pyInt`).
* A `recorded_at` timestamp is modelled by its calendar day
  (`recorded_day : Int`); the query window
  `[dateT00:00:00, dateT23:59:59]` used throughout the source is exactly
  the set of readings whose day equals the target date.
* Supabase tables become lists of rows inside a `DB` structure; `insert`
  appends, `update ... eq id` maps over rows, `.single()` on the range
  table becomes `List.find?` (the source checks `if range_resp.data:`,
  i.e. treats a missing row as falsy).
* Python `HTTPException` becomes an `HErr` value in `Except`; a generic
  runtime exception is `PyExc.other`.  The only operation of the core that
  can fail for reasons outside the pure model is the database `execute()`
  call of the insert inside the batch loops; its success is modelled by an
  environment oracle `env : String → Bool` (per user).  `env u = false`
  means the external database client raised while persisting the summary
  of user `u`.
* The Python set `{row["user_id"] for row in ...}` has arbitrary
  iteration order; the model fixes first-occurrence order
  (`dedupFirst`).  No proved property depends on the particular order.
* The constant members of `summary_data` (`recommendations`,
  `daily_achievements`, `areas_for_improvement`, always `[]`) and the
  `updated_at` column are omitted from the embedded records; no claim
  mentions them.  The textual rendering of a number inside an f-string is
  abstracted by `showQ` (numerator/denominator form); no claim depends on
  the digits of a value, only on the fixed surrounding text.
-/

/-- Status labels produced by the range classifier
(`status_label` strings in the source). -/
inductive Status where
  | optimal
  | normal
  | concerning
  | critical
deriving DecidableEq, Repr

/-- Overall daily status (`overall_status` strings in the source). -/
inductive Overall where
  | good
  | needs_attention
  | critical
deriving DecidableEq, Repr

/-- The two summary kinds. -/
inductive SummaryType where
  | morning_briefing
  | evening_summary
deriving DecidableEq, Repr

/-- An `HTTPException(status_code, detail)`. -/
structure HErr where
  code : Nat
  detail : String
deriving DecidableEq, Repr

/-- A Python exception: either an `HTTPException` or some other runtime
exception carrying its message. -/
inductive PyExc where
  | http (e : HErr)
  | other (msg : String)
deriving DecidableEq, Repr

/-- Round-half-to-even at two decimal places: Python `round(x, 2)` on the
exact rational model. -/
def round2 (x : ℚ) : ℚ :=
  let n : Int := (x * 100).floor
  let frac : ℚ := x * 100 - (n : ℚ)
  let r : Int :=
    if frac < 1 / 2 then n
    else if 1 / 2 < frac then n + 1
    else if n % 2 = 0 then n else n + 1
  (r : ℚ) / 100

/-- Python `int(x)`: truncation toward zero. -/
def pyInt (x : ℚ) : Int :=
  if 0 ≤ x then x.floor else -((-x).floor)

/-- Python `min(values)` on a non-empty list (junk value on `[]`,
which never occurs: groups are built from at least one reading). -/
def listMin : List ℚ → ℚ
  | [] => 0
  | x :: xs => xs.foldl min x

/-- Python `max(values)` on a non-empty list. -/
def listMax : List ℚ → ℚ
  | [] => 0
  | x :: xs => xs.foldl max x

/-- `'_'` replaced by `' '`: Python `s.replace('_', ' ')`. -/
def replaceUnderscores (s : String) : String :=
  String.mk (s.toList.map (fun c => if c = '_' then ' ' else c))

/-- Python `str.title()`: an alphabetic character is uppercased when the
previous character is not alphabetic, lowercased otherwise. -/
def titleChars : Bool → List Char → List Char
  | _, [] => []
  | prevAlpha, c :: rest =>
    (if c.isAlpha then (if prevAlpha then c.toLower else c.toUpper) else c)
      :: titleChars c.isAlpha rest

/-- `biomarker.replace('_', ' ').title()` from the insight strings. -/
def displayTitle (s : String) : String :=
  String.mk (titleChars false (replaceUnderscores s).toList)

/-- Abstract textual rendering of a rational value inside an f-string. -/
def showQ (q : ℚ) : String :=
  toString q.num ++ "/" ++ toString q.den

/-- Does `needle` occur at the start of `hay`? -/
def startsWithChars : List Char → List Char → Bool
  | [], _ => true
  | _ :: _, [] => false
  | a :: as, b :: bs => a == b && startsWithChars as bs

/-- Does `needle` occur anywhere in `hay`? -/
def hasSubChars (needle : List Char) : List Char → Bool
  | [] => needle.isEmpty
  | c :: rest => startsWithChars needle (c :: rest) || hasSubChars needle rest

/-- Python substring test `needle in hay`. -/
def strContains (hay needle : String) : Bool :=
  hasSubChars needle.toList hay.toList

/-- One row of the `biomarkers` table (the columns the service reads). -/
structure BiomarkerRow where
  user_id : String
  biomarker_type : String
  value : ℚ
  recorded_day : Int
deriving DecidableEq, Repr

/-- One row of the `biomarker_ranges` reference table. -/
structure RangeRow where
  biomarker_type : String
  min_normal : ℚ
  max_normal : ℚ
  min_optimal : ℚ
  max_optimal : ℚ
  critical_low : ℚ
  critical_high : ℚ
deriving DecidableEq, Repr

/-- A per-metric block of the `metrics` object inside `summary_data`.
The four mutually exclusive shapes built by `calculate_daily_summary`:
the combined blood-pressure block, the steps block, the sleep block and
the standard avg/min/max block. -/
inductive MetricBlock where
  | bp (readings_count : Nat) (status : Status)
       (systolic_avg diastolic_avg : Option ℚ)
  | steps (total : Int) (goal : Nat) (percentage : ℚ) (status : Status)
  | sleep (hours : ℚ) (goal : ℚ) (status : Status)
  | standard (avg mn mx : ℚ) (readings_count : Nat) (status : Status)
deriving DecidableEq, Repr

/-- The persisted `summary_data` JSON document (its varying members). -/
structure SummaryData where
  date : Int
  summary_type : SummaryType
  metrics : List (String × MetricBlock)
  insights : List String
  alerts : List String
deriving DecidableEq, Repr

/-- One row of the `daily_health_summaries` table. -/
structure SummaryRow where
  id : Nat
  user_id : String
  summary_date : Int
  summary_type : SummaryType
  summary_data : SummaryData
  overall_status : Overall
  email_sent : Bool
  email_sent_at : Option Nat
  created_at : Nat
deriving DecidableEq, Repr

/-- A `providers` / `patients` profile row: `user_id` plus profile `id`. -/
structure ProfileRow where
  user_id : String
  id : Nat
deriving DecidableEq, Repr

/-- One row of `patient_provider_connections`. -/
structure ConnRow where
  provider_id : Nat
  patient_id : Nat
  status : String
deriving DecidableEq, Repr

/-- The database state visible to the service. `next_id` feeds the ids of
inserted summary rows. -/
structure DB where
  biomarkers : List BiomarkerRow
  biomarker_ranges : List RangeRow
  daily_health_summaries : List SummaryRow
  providers : List ProfileRow
  patients : List ProfileRow
  patient_provider_connections : List ConnRow
  next_id : Nat
deriving DecidableEq, Repr

/-- The biomarkers query of `calculate_daily_summary`: readings of one
user inside the target date window. -/
def readingsFor (db : DB) (user : String) (d : Int) : List BiomarkerRow :=
  db.biomarkers.filter (fun r => r.user_id == user && r.recorded_day == d)

/-- The `biomarker_ranges ... .single()` query. -/
def rangeFor (db : DB) (bt : String) : Option RangeRow :=
  db.biomarker_ranges.find? (fun r => r.biomarker_type == bt)

/-- `grouped.setdefault(type, []).append(value)`: append `v` to the
group of `bt`, creating the group at the end on first occurrence. -/
def addReading (acc : List (String × List ℚ)) (bt : String) (v : ℚ) :
    List (String × List ℚ) :=
  match acc with
  | [] => [(bt, [v])]
  | (k, vs) :: rest =>
    if k = bt then (k, vs ++ [v]) :: rest
    else (k, vs) :: addReading rest bt v

/-- The grouping loop of `calculate_daily_summary`. -/
def groupReadings (rows : List BiomarkerRow) : List (String × List ℚ) :=
  rows.foldl (fun acc r => addReading acc r.biomarker_type r.value) []

/-- The classification block of `calculate_daily_summary`
(lines 184–193 of the source), given a range row. -/
def classify (r : RangeRow) (v : ℚ) : Status :=
  if v < r.critical_low ∨ r.critical_high < v then .critical
  else if v < r.min_normal ∨ r.max_normal < v then .concerning
  else if r.min_optimal ≤ v ∧ v ≤ r.max_optimal then .optimal
  else .normal

/-- Status of a value for a biomarker type: `normal` when no range row
exists, otherwise `classify`. -/
def statusForValue (db : DB) (bt : String) (v : ℚ) : Status :=
  match rangeFor db bt with
  | none => .normal
  | some r => classify r v

/-- Mutable state of the per-biomarker loop of
`calculate_daily_summary`. -/
structure LoopState where
  metrics : List (String × MetricBlock)
  insights : List String
  alerts : List String
  has_critical : Bool
  has_concerning : Bool
deriving DecidableEq, Repr

/-- Python-dict membership test on the `metrics` association list. -/
def dictMember (k : String) (m : List (String × MetricBlock)) : Bool :=
  (m.find? (fun p => p.1 == k)).isSome

/-- Python-dict assignment `m[k] = v`: update in place, else append. -/
def dictSet (m : List (String × MetricBlock)) (k : String)
    (v : MetricBlock) : List (String × MetricBlock) :=
  match m with
  | [] => [(k, v)]
  | (k', v') :: rest =>
    if k' = k then (k, v) :: rest else (k', v') :: dictSet rest k v

/-- In-place modification of the entry at key `k`, if present. -/
def dictModify (m : List (String × MetricBlock)) (k : String)
    (f : MetricBlock → MetricBlock) : List (String × MetricBlock) :=
  match m with
  | [] => []
  | (k', v') :: rest =>
    if k' = k then (k', f v') :: rest else (k', v') :: dictModify rest k f

/-- Python-dict lookup `m.get(k)`. -/
def dictFind (m : List (String × MetricBlock)) (k : String) :
    Option MetricBlock :=
  (m.find? (fun p => p.1 == k)).map (fun p => p.2)

/-- `metrics["blood_pressure"]["systolic_avg"] = q`. -/
def setSys (q : ℚ) : MetricBlock → MetricBlock
  | .bp c s _ d => .bp c s (some q) d
  | b => b

/-- `metrics["blood_pressure"]["diastolic_avg"] = q`. -/
def setDia (q : ℚ) : MetricBlock → MetricBlock
  | .bp c s sy _ => .bp c s sy (some q)
  | b => b

/-- One iteration of the `for biomarker, values in grouped.items()` loop
of `calculate_daily_summary` (lines 168–242 of the source). -/
def stepBiomarker (db : DB) (st : LoopState) (bv : String × List ℚ) :
    LoopState :=
  let biomarker := bv.1
  let values := bv.2
  let avg_val : ℚ := values.sum / (values.length : ℚ)
  let min_val := listMin values
  let max_val := listMax values
  let status_label := statusForValue db biomarker avg_val
  let has_critical := st.has_critical || (status_label == .critical)
  let has_concerning := st.has_concerning || (status_label == .concerning)
  let metrics :=
    if biomarker = "blood_pressure_systolic" then
      let m :=
        if dictMember "blood_pressure" st.metrics then st.metrics
        else dictSet st.metrics "blood_pressure"
          (.bp values.length status_label none none)
      dictModify m "blood_pressure" (setSys (round2 avg_val))
    else if biomarker = "blood_pressure_diastolic" then
      let m :=
        if dictMember "blood_pressure" st.metrics then st.metrics
        else dictSet st.metrics "blood_pressure"
          (.bp values.length status_label none none)
      dictModify m "blood_pressure" (setDia (round2 avg_val))
    else if biomarker = "steps" then
      let total_steps := pyInt values.sum
      dictSet st.metrics "steps"
        (.steps total_steps 10000 (round2 ((total_steps : ℚ) / 10000 * 100))
          status_label)
    else if biomarker = "sleep_duration" then
      dictSet st.metrics "sleep" (.sleep (round2 avg_val) 8 status_label)
    else
      dictSet st.metrics biomarker
        (.standard (round2 avg_val) (round2 min_val) (round2 max_val)
          values.length status_label)
  let insights :=
    if status_label == .optimal then
      st.insights ++ [displayTitle biomarker ++ " is in optimal range."]
    else st.insights
  let alerts :=
    if status_label == .critical then
      st.alerts ++ ["⚠️ Critical " ++ replaceUnderscores biomarker
        ++ " detected: " ++ showQ (round2 avg_val)]
    else st.alerts
  { metrics := metrics, insights := insights, alerts := alerts,
    has_critical := has_critical, has_concerning := has_concerning }

/-- Return record of `calculate_daily_summary`. -/
structure CalcResult where
  summary_data : SummaryData
  total_readings : Nat
  biomarkers_tracked : List String
  has_critical_values : Bool
  has_concerning_values : Bool
  overall_status : Overall
deriving DecidableEq, Repr

/-- `HealthSummaryService.calculate_daily_summary`. -/
def calculate_daily_summary (user_id : String) (target_date : Int)
    (summary_type : SummaryType) (db : DB) : Except HErr CalcResult :=
  let rows := readingsFor db user_id target_date
  if rows.isEmpty then
    .error ⟨404, "No biomarker data for this date"⟩
  else
    let grouped := groupReadings rows
    let st := grouped.foldl (stepBiomarker db) ⟨[], [], [], false, false⟩
    let overall : Overall :=
      if st.has_critical then .critical
      else if st.has_concerning then .needs_attention
      else .good
    .ok
      { summary_data :=
          { date := target_date, summary_type := summary_type,
            metrics := st.metrics, insights := st.insights,
            alerts := st.alerts },
        total_readings := (grouped.map (fun p => p.2.length)).sum,
        biomarkers_tracked := grouped.map (fun p => p.1),
        has_critical_values := st.has_critical,
        has_concerning_values := st.has_concerning,
        overall_status := overall }

/-- First-occurrence deduplication, with an explicit seen accumulator
(one concrete order for the Python set of user ids). -/
def dedupAux (seen : List String) : List String → List String
  | [] => []
  | x :: xs =>
    if seen.contains x then dedupAux seen xs
    else x :: dedupAux (seen ++ [x]) xs

/-- The distinct user ids, in first-occurrence order. -/
def dedupFirst (l : List String) : List String := dedupAux [] l

/-- The user-enumeration query of the batch passes: distinct users with
at least one reading inside the target date window. -/
def enumerateUsers (db : DB) (d : Int) : List String :=
  dedupFirst
    (((db.biomarkers.filter (fun r => r.recorded_day == d)).map
      (fun r => r.user_id)))

/-- `supabase.table("daily_health_summaries").insert({...}).execute()`:
append a fresh row. -/
def insertSummary (db : DB) (user : String) (d : Int) (k : SummaryType)
    (sd : SummaryData) (ov : Overall) (emailSent : Bool) (now : Nat) : DB :=
  { db with
      daily_health_summaries := db.daily_health_summaries ++
        [{ id := db.next_id, user_id := user, summary_date := d,
           summary_type := k, summary_data := sd, overall_status := ov,
           email_sent := emailSent, email_sent_at := none,
           created_at := now }],
      next_id := db.next_id + 1 }

/-- The run summary returned by a batch pass (`users_with_alerts` is
only present in the morning pass). -/
structure RunSummary where
  total_users_processed : Nat
  summaries_created : Nat
  users_with_alerts : Option Nat
deriving DecidableEq, Repr

/-- The `for user_id in user_ids` loop of `generate_morning_briefing`.
An exception raised by any statement of the body leaves the loop at
once, exactly as in the source (there is no per-user handler).  The
accumulator carries the store and the two counters. -/
def morningLoop (d : Int) (now : Nat) (env : String → Bool) :
    List String → DB × Nat × Nat → Except PyExc (DB × Nat × Nat)
  | [], acc => .ok acc
  | u :: rest, acc =>
    match calculate_daily_summary u d .morning_briefing acc.1 with
    | .error e => .error (.http e)
    | .ok result =>
      if env u then
        morningLoop d now env rest
          (insertSummary acc.1 u d .morning_briefing result.summary_data
            result.overall_status false now,
           acc.2.1 + 1,
           acc.2.2 + (if result.has_critical_values then 1 else 0))
      else .error (.other "insert execute failed")

/-- `HealthSummaryService.generate_morning_briefing` (with the target
date supplied, as the callers of the scheduler do). -/
def generate_morning_briefing (target_date : Int) (now : Nat)
    (env : String → Bool) (db : DB) : Except HErr (DB × RunSummary) :=
  let user_ids := enumerateUsers db target_date
  match morningLoop target_date now env user_ids (db, 0, 0) with
  | .ok (db', created, alerts) =>
    .ok (db', { total_users_processed := user_ids.length,
                summaries_created := created,
                users_with_alerts := some alerts })
  | .error (.http e) => .error e
  | .error (.other m) =>
    .error ⟨500, "Failed to generate morning briefing: " ++ m⟩

/-- The `for user_id in user_ids` loop of `generate_evening_summary`. -/
def eveningLoop (d : Int) (now : Nat) (env : String → Bool) :
    List String → DB × Nat → Except PyExc (DB × Nat)
  | [], acc => .ok acc
  | u :: rest, acc =>
    match calculate_daily_summary u d .evening_summary acc.1 with
    | .error e => .error (.http e)
    | .ok result =>
      if env u then
        eveningLoop d now env rest
          (insertSummary acc.1 u d .evening_summary result.summary_data
            result.overall_status true now,
           acc.2 + 1)
      else .error (.other "insert execute failed")

/-- `HealthSummaryService.generate_evening_summary`. -/
def generate_evening_summary (target_date : Int) (now : Nat)
    (env : String → Bool) (db : DB) : Except HErr (DB × RunSummary) :=
  let user_ids := enumerateUsers db target_date
  match eveningLoop target_date now env user_ids (db, 0) with
  | .ok (db', created) =>
    .ok (db', { total_users_processed := user_ids.length,
                summaries_created := created,
                users_with_alerts := none })
  | .error (.http e) => .error e
  | .error (.other m) =>
    .error ⟨500, "Failed to generate evening summary: " ++ m⟩

/-- The `update ... .eq("id", id)` call of `regenerate_summary`: replace
`summary_data` / `overall_status`, reset the email state. -/
def updateSummaryRow (db : DB) (rowId : Nat) (sd : SummaryData)
    (ov : Overall) : DB :=
  { db with
      daily_health_summaries := db.daily_health_summaries.map (fun r =>
        if r.id == rowId then
          { r with summary_data := sd, overall_status := ov,
                   email_sent := false, email_sent_at := none }
        else r) }

/-- `HealthSummaryService.regenerate_summary`.  Returns the new store and
the complete record fetched back by id. -/
def regenerate_summary (user : String) (d : Int) (k : SummaryType)
    (now : Nat) (db : DB) : Except HErr (DB × Option SummaryRow) :=
  match calculate_daily_summary user d k db with
  | .error e => .error e
  | .ok result =>
    let existing := db.daily_health_summaries.filter (fun r =>
      r.user_id == user && r.summary_date == d && r.summary_type == k)
    match existing with
    | e0 :: _ =>
      let db' := updateSummaryRow db e0.id result.summary_data
        result.overall_status
      .ok (db', db'.daily_health_summaries.find? (fun r => r.id == e0.id))
    | [] =>
      let db' := insertSummary db user d k result.summary_data
        result.overall_status false now
      .ok (db', db'.daily_health_summaries.find? (fun r =>
        r.id == db.next_id))

/-- A summary record as returned by the read layer: the stored row plus
the fields recomputed from `summary_data` (lines 384–403 of the
source). -/
structure EnrichedSummary where
  row : SummaryRow
  total_readings : Nat
  biomarkers_tracked : List String
  has_critical_values : Bool
  has_concerning_values : Bool
deriving DecidableEq, Repr

/-- The metadata loop over `metrics`: blocks carrying `readings_count`
contribute their count, the `steps` and `sleep` keys contribute one. -/
def metricMeta (metrics : List (String × MetricBlock)) :
    Nat × List String :=
  metrics.foldl (fun acc p =>
    match p.2 with
    | .bp c _ _ _ => (acc.1 + c, acc.2 ++ [p.1])
    | .standard _ _ _ c _ => (acc.1 + c, acc.2 ++ [p.1])
    | .steps _ _ _ _ =>
      if p.1 = "steps" then (acc.1 + 1, acc.2 ++ [p.1]) else acc
    | .sleep _ _ _ =>
      if p.1 = "sleep" then (acc.1 + 1, acc.2 ++ [p.1]) else acc) (0, [])

/-- The calculated fields added by `get_user_summary` /
`get_user_summaries_range` to a stored record. -/
def enrich (r : SummaryRow) : EnrichedSummary :=
  let meta := metricMeta r.summary_data.metrics
  { row := r,
    total_readings := meta.1,
    biomarkers_tracked := meta.2,
    has_critical_values :=
      decide (0 < (r.summary_data.alerts.filter
        (fun a => strContains a "Critical")).length),
    has_concerning_values := false }

/-- `order("created_at", desc=True).limit(1)`: the row with the largest
`created_at` (first such row on ties). -/
def selectLatest (l : List SummaryRow) : Option SummaryRow :=
  l.foldl (fun acc r =>
    match acc with
    | none => some r
    | some a => if a.created_at < r.created_at then some r else some a)
    none

/-- `HealthSummaryService.get_user_summary`. -/
def get_user_summary (user : String) (d : Int) (t : Option SummaryType)
    (db : DB) : Option EnrichedSummary :=
  let rows := db.daily_health_summaries.filter (fun r =>
    r.user_id == user && r.summary_date == d)
  let rows :=
    match t with
    | none => rows
    | some k => rows.filter (fun r => r.summary_type == k)
  (selectLatest rows).map enrich

/-- Stable insertion for the `order("summary_date", desc=True)` sort. -/
def insertDesc (r : SummaryRow) : List SummaryRow → List SummaryRow
  | [] => [r]
  | x :: xs =>
    if x.summary_date < r.summary_date then r :: x :: xs
    else x :: insertDesc r xs

/-- Newest-first ordering by `summary_date`. -/
def sortDesc (l : List SummaryRow) : List SummaryRow :=
  l.foldr insertDesc []

/-- `HealthSummaryService.get_user_summaries_range`. -/
def get_user_summaries_range (user : String) (sd ed : Int)
    (t : Option SummaryType) (db : DB) : List EnrichedSummary :=
  let rows := db.daily_health_summaries.filter (fun r =>
    r.user_id == user && decide (sd ≤ r.summary_date) &&
      decide (r.summary_date ≤ ed))
  let rows :=
    match t with
    | none => rows
    | some k => rows.filter (fun r => r.summary_type == k)
  (sortDesc rows).map enrich

/-- `HealthSummaryService._verify_provider_patient_connection`. -/
def _verify_provider_patient_connection (providerUser patientUser : String)
    (db : DB) : Except HErr Unit :=
  match db.providers.filter (fun p => p.user_id == providerUser) with
  | [] => .error ⟨404, "Provider profile not found"⟩
  | pp :: _ =>
    match db.patients.filter (fun p => p.user_id == patientUser) with
    | [] => .error ⟨404, "Patient profile not found"⟩
    | pat :: _ =>
      match db.patient_provider_connections.filter (fun c =>
        c.provider_id == pp.id && c.patient_id == pat.id) with
      | [] => .error ⟨403, "No accepted connection with this patient"⟩
      | c :: _ =>
        if c.status = "accepted" then .ok ()
        else .error ⟨403, "No accepted connection with this patient"⟩

/-- `HealthSummaryService.get_patient_summary_for_provider`. -/
def get_patient_summary_for_provider (providerUser patientUser : String)
    (d : Int) (t : Option SummaryType) (db : DB) :
    Except HErr (Option EnrichedSummary) :=
  match _verify_provider_patient_connection providerUser patientUser db with
  | .error e => .error e
  | .ok _ => .ok (get_user_summary patientUser d t db)

/-- `HealthSummaryService.get_patient_summaries_range_for_provider`. -/
def get_patient_summaries_range_for_provider
    (providerUser patientUser : String) (sd ed : Int)
    (t : Option SummaryType) (db : DB) :
    Except HErr (List EnrichedSummary) :=
  match _verify_provider_patient_connection providerUser patientUser db with
  | .error e => .error e
  | .ok _ => .ok (get_user_summaries_range patientUser sd ed t db)

/-- Number of stored summary rows for one `(user, date, kind)` key. -/
def summaryCount (db : DB) (user : String) (d : Int) (k : SummaryType) :
    Nat :=
  (db.daily_health_summaries.filter (fun r =>
    r.user_id == user && r.summary_date == d && r.summary_type == k)).length

/-- The status the loop computes for one group: the classifier applied
to the arithmetic mean of the group. -/
def statusOfGroup (db : DB) (bv : String × List ℚ) : Status :=
  statusForValue db bv.1 (bv.2.sum / (bv.2.length : ℚ))

/-- The alert string emitted for a critical group. -/
def mkAlert (bv : String × List ℚ) : String :=
  "⚠️ Critical " ++ replaceUnderscores bv.1 ++ " detected: "
    ++ showQ (round2 (bv.2.sum / (bv.2.length : ℚ)))

theorem stepBiomarker_has_critical (db : DB) (st : LoopState)
    (bv : String × List ℚ) :
    (stepBiomarker db st bv).has_critical =
      (st.has_critical || (statusOfGroup db bv == .critical)) := rfl

theorem stepBiomarker_has_concerning (db : DB) (st : LoopState)
    (bv : String × List ℚ) :
    (stepBiomarker db st bv).has_concerning =
      (st.has_concerning || (statusOfGroup db bv == .concerning)) := rfl

theorem stepBiomarker_alerts (db : DB) (st : LoopState)
    (bv : String × List ℚ) :
    (stepBiomarker db st bv).alerts =
      (if statusOfGroup db bv == .critical then st.alerts ++ [mkAlert bv]
       else st.alerts) := rfl

theorem foldl_has_critical (db : DB) (g : List (String × List ℚ)) :
    ∀ st : LoopState,
      (g.foldl (stepBiomarker db) st).has_critical =
        (st.has_critical || g.any (fun bv => statusOfGroup db bv == .critical)) := by
  induction g with
  | nil => intro st; simp
  | cons bv rest ih =>
    intro st
    rw [List.foldl_cons, ih, stepBiomarker_has_critical]
    simp [Bool.or_assoc]

theorem foldl_has_concerning (db : DB) (g : List (String × List ℚ)) :
    ∀ st : LoopState,
      (g.foldl (stepBiomarker db) st).has_concerning =
        (st.has_concerning ||
          g.any (fun bv => statusOfGroup db bv == .concerning)) := by
  induction g with
  | nil => intro st; simp
  | cons bv rest ih =>
    intro st
    rw [List.foldl_cons, ih, stepBiomarker_has_concerning]
    simp [Bool.or_assoc]

theorem foldl_alerts (db : DB) (g : List (String × List ℚ)) :
    ∀ st : LoopState,
      (g.foldl (stepBiomarker db) st).alerts =
        st.alerts ++
          (g.filter (fun bv => statusOfGroup db bv == .critical)).map
            mkAlert := by
  induction g with
  | nil => intro st; simp
  | cons bv rest ih =>
    intro st
    rw [List.foldl_cons, ih, stepBiomarker_alerts]
    by_cases h : statusOfGroup db bv = .critical
    · simp [h]
    · simp [h]

/-- The nesting invariant on a reference range from the spec data
model. -/
def nestingInv (r : RangeRow) : Prop :=
  r.critical_low ≤ r.min_normal ∧ r.min_normal ≤ r.min_optimal ∧
  r.min_optimal ≤ r.max_optimal ∧ r.max_optimal ≤ r.max_normal ∧
  r.max_normal ≤ r.critical_high

/-- C3: for every value and every reference range satisfying the
nesting invariant, classification returns exactly one of
optimal/normal/concerning/critical, decided in the precedence
critical, then concerning, then optimal, then normal — in particular
critical wins whenever a critical bound is crossed, even if the normal
range is also violated — and a biomarker type without a range row is
classified `normal`. -/
theorem claim3 (v : ℚ) (r : RangeRow) (h : nestingInv r) (db : DB)
    (bt : String) :
    (classify r v = Status.critical ↔
      (v < r.critical_low ∨ r.critical_high < v))
  ∧ (classify r v = Status.concerning ↔
      (¬(v < r.critical_low ∨ r.critical_high < v) ∧
        (v < r.min_normal ∨ r.max_normal < v)))
  ∧ (classify r v = Status.optimal ↔
      (¬(v < r.critical_low ∨ r.critical_high < v) ∧
        ¬(v < r.min_normal ∨ r.max_normal < v) ∧
        (r.min_optimal ≤ v ∧ v ≤ r.max_optimal)))
  ∧ (classify r v = Status.normal ↔
      (¬(v < r.critical_low ∨ r.critical_high < v) ∧
        ¬(v < r.min_normal ∨ r.max_normal < v) ∧
        ¬(r.min_optimal ≤ v ∧ v ≤ r.max_optimal)))
  ∧ (rangeFor db bt = none → statusForValue db bt v = Status.normal) := by
  refine ⟨?_, ?_, ?_, ?_, fun hn => by simp [statusForValue, hn]⟩ <;>
    · simp only [classify]
      split_ifs <;> simp_all

/-- Witness for C3 at a concrete range and value. -/
theorem claim3_witness :
    nestingInv ⟨"heart_rate", 60, 100, 70, 90, 40, 120⟩ ∧
    (classify ⟨"heart_rate", 60, 100, 70, 90, 40, 120⟩ 30 = Status.critical ↔
      ((30 : ℚ) < (⟨"heart_rate", 60, 100, 70, 90, 40, 120⟩ : RangeRow).critical_low ∨
        (⟨"heart_rate", 60, 100, 70, 90, 40, 120⟩ : RangeRow).critical_high < 30)) :=
  ⟨by constructor <;> norm_num [nestingInv],
   (claim3 30 ⟨"heart_rate", 60, 100, 70, 90, 40, 120⟩
     (by constructor <;> norm_num [nestingInv]) ⟨[], [], [], [], [], [], 0⟩ "x").1⟩

/-- The `overall_status` derivation the spec describes: a fold over the
per-metric statuses of the day (`critical` if any metric is critical,
else `needs_attention` if any is concerning, else `good`). -/
def specOverallFold (db : DB) (g : List (String × List ℚ)) : Overall :=
  if g.any (fun bv => statusOfGroup db bv == .critical) then .critical
  else if g.any (fun bv => statusOfGroup db bv == .concerning) then
    .needs_attention
  else .good

/-- C2: on every successful run, `calculate_daily_summary` derives
`has_critical_values`, `has_concerning_values` and `overall_status` as
the fold over the statuses of all metric groups of the day — no
metric is skipped: `critical` if any group classifies critical, else
`needs_attention` if any classifies concerning, else `good`. -/
theorem claim2 (user : String) (d : Int) (k : SummaryType) (db : DB)
    (r : CalcResult)
    (h : calculate_daily_summary user d k db = .ok r) :
    r.has_critical_values =
      (groupReadings (readingsFor db user d)).any
        (fun bv => statusOfGroup db bv == .critical)
  ∧ r.has_concerning_values =
      (groupReadings (readingsFor db user d)).any
        (fun bv => statusOfGroup db bv == .concerning)
  ∧ r.overall_status =
      specOverallFold db (groupReadings (readingsFor db user d)) := by
  by_cases he : (readingsFor db user d).isEmpty
  · simp [calculate_daily_summary, he] at h
  · simp only [calculate_daily_summary] at h
    rw [if_neg (by simpa using he)] at h
    simp only [Except.ok.injEq] at h
    subst h
    refine ⟨?_, ?_, ?_⟩
    · simp [foldl_has_critical]
    · simp [foldl_has_concerning]
    · simp only [specOverallFold]
      rw [foldl_has_critical, foldl_has_concerning, Bool.false_or,
        Bool.false_or]

/-- Concrete store for the C2 witness: one user, one concerning
heart-rate reading. -/
def dbC2 : DB :=
  ⟨[⟨"u", "heart_rate", 200, 0⟩], [⟨"heart_rate", 60, 100, 70, 90, 40, 300⟩],
   [], [], [], [], 0⟩

/-- The result `calculate_daily_summary` produces on `dbC2`. -/
def rC2 : CalcResult :=
  ⟨⟨0, .morning_briefing, [("heart_rate", .standard 200 200 200 1 .concerning)],
    [], []⟩, 1, ["heart_rate"], false, true, .needs_attention⟩

/-- Witness for C2 on the concrete store `dbC2`. -/
theorem claim2_witness :
    rC2.overall_status =
      specOverallFold dbC2 (groupReadings (readingsFor dbC2 "u" 0)) :=
  (claim2 "u" 0 .morning_briefing dbC2 rC2 (by with_unfolding_all rfl)).2.2

/-- On a successful run whose result carries `has_critical_values =
false`, no alert string was emitted at all. -/
theorem calculate_alerts_empty (user : String) (d : Int) (k : SummaryType)
    (db : DB) (r : CalcResult)
    (h : calculate_daily_summary user d k db = .ok r)
    (hc : r.has_critical_values = false) :
    r.summary_data.alerts = [] := by
  by_cases he : (readingsFor db user d).isEmpty
  · simp [calculate_daily_summary, he] at h
  · simp only [calculate_daily_summary] at h
    rw [if_neg (by simpa using he)] at h
    simp only [Except.ok.injEq] at h
    subst h
    simp only [foldl_has_critical, Bool.false_or] at hc
    have hall : ∀ bv ∈ groupReadings (readingsFor db user d),
        ¬(statusOfGroup db bv == Status.critical) = true := by
      simpa using List.any_eq_false.mp hc
    simp [foldl_alerts, List.filter_eq_nil_iff.mpr hall]

/-- C10: the read layer (`get_user_summary` and
`get_user_summaries_range`) always reports `has_concerning_values =
false`, recomputes `has_critical_values` as the presence of an alert
string containing the substring "Critical", and therefore reports a
stored summary whose metrics were concerning but not critical with
both flags false. -/
theorem claim10 (db : DB) (user : String) (d sd ed : Int)
    (t : Option SummaryType) :
    (∀ e, get_user_summary user d t db = some e →
      e.has_concerning_values = false ∧
      e.has_critical_values =
        decide (0 < (e.row.summary_data.alerts.filter
          (fun a => strContains a "Critical")).length))
  ∧ (∀ e ∈ get_user_summaries_range user sd ed t db,
      e.has_concerning_values = false ∧
      e.has_critical_values =
        decide (0 < (e.row.summary_data.alerts.filter
          (fun a => strContains a "Critical")).length))
  ∧ (∀ (uc : String) (dc : Int) (k : SummaryType) (r : CalcResult)
      (e : EnrichedSummary),
      calculate_daily_summary uc dc k db = .ok r →
      r.has_concerning_values = true →
      r.has_critical_values = false →
      get_user_summary user d t db = some e →
      e.row.summary_data = r.summary_data →
      e.has_critical_values = false ∧ e.has_concerning_values = false) := by
  have h1 : ∀ e, get_user_summary user d t db = some e →
      e = enrich e.row := by
    intro e he
    simp only [get_user_summary] at he
    obtain ⟨x, -, hx⟩ := Option.map_eq_some'.mp he
    subst hx; rfl
  refine ⟨fun e he => ?_, fun e he => ?_, ?_⟩
  · rw [h1 e he]; exact ⟨rfl, rfl⟩
  · simp only [get_user_summaries_range] at he
    obtain ⟨x, -, hx⟩ := List.mem_map.mp he
    subst hx; exact ⟨rfl, rfl⟩
  · intro uc dc k r e hcalc hcc hcf he hsd
    have hrow := h1 e he
    have halerts := calculate_alerts_empty uc dc k db r hcalc hcf
    rw [hrow]
    refine ⟨?_, rfl⟩
    simp [enrich, hsd, halerts]

/-- Concrete store for the C10 witness: one concerning (not critical)
heart-rate day, with the summary the calculator produces for it
already stored. -/
def sd10 : SummaryData :=
  ⟨0, .morning_briefing,
   [("heart_rate", .standard 200 200 200 1 .concerning)], [], []⟩

/-- The stored summary row of `db10`. -/
def row10 : SummaryRow :=
  ⟨0, "u", 0, .morning_briefing, sd10, .needs_attention, false, none, 0⟩

/-- The C10 witness store. -/
def db10 : DB :=
  ⟨[⟨"u", "heart_rate", 200, 0⟩], [⟨"heart_rate", 60, 100, 70, 90, 40, 300⟩],
   [row10], [], [], [], 1⟩

/-- Witness for C10: the concerning-only stored summary of `db10` is
read back with both flags false. -/
theorem claim10_witness :
    (enrich row10).has_critical_values = false ∧
    (enrich row10).has_concerning_values = false :=
  (claim10 db10 "u" 0 0 0 none).2.2 "u" 0 .morning_briefing
    ⟨sd10, 1, ["heart_rate"], false, true, .needs_attention⟩ (enrich row10)
    (by with_unfolding_all rfl) (by rfl) (by rfl)
    (by with_unfolding_all rfl) (by rfl)

theorem mem_dedupAux (x : String) :
    ∀ (l seen : List String), x ∈ dedupAux seen l → x ∈ l := by
  intro l
  induction l with
  | nil => intro seen h; simpa [dedupAux] using h
  | cons y ys ih =>
    intro seen h
    simp only [dedupAux] at h
    by_cases hy : seen.contains y
    · rw [if_pos hy] at h
      exact List.mem_cons_of_mem _ (ih _ h)
    · rw [if_neg hy] at h
      rcases List.mem_cons.mp h with h1 | h1
      · exact h1 ▸ List.mem_cons_self _ _
      · exact List.mem_cons_of_mem _ (ih _ h1)

/-- A user enumerated by a batch pass has at least one reading inside
the target window. -/
theorem enum_user_has_reading (db : DB) (d : Int) (u : String)
    (h : u ∈ enumerateUsers db d) : readingsFor db u d ≠ [] := by
  have h1 := mem_dedupAux u _ [] h
  obtain ⟨r, hr, hru⟩ := List.mem_map.mp h1
  have hr2 := List.mem_filter.mp hr
  intro hempty
  have : r ∈ readingsFor db u d := by
    apply List.mem_filter.mpr
    refine ⟨hr2.1, ?_⟩
    simp only [Bool.and_eq_true, beq_iff_eq]
    exact ⟨hru, by simpa using hr2.2⟩
  rw [hempty] at this
  exact absurd this (List.not_mem_nil r)

/-- Every row present after the morning loop was either already stored
or is a fresh `morning_briefing` row, not yet emailed, for one of the
processed users. -/
theorem morningLoop_inserts (d : Int) (now : Nat) (env : String → Bool) :
    ∀ (users : List String) (acc res : DB × Nat × Nat),
      morningLoop d now env users acc = .ok res →
      ∀ r ∈ res.1.daily_health_summaries,
        r ∈ acc.1.daily_health_summaries ∨
          (r.user_id ∈ users ∧ r.summary_type = .morning_briefing ∧
            r.email_sent = false) := by
  intro users
  induction users with
  | nil =>
    intro acc res h r hr
    simp only [morningLoop, Except.ok.injEq] at h
    subst h
    exact Or.inl hr
  | cons u rest ih =>
    intro acc res h r hr
    cases hc : calculate_daily_summary u d .morning_briefing acc.1 with
    | error e => simp [morningLoop, hc] at h
    | ok result =>
      by_cases henv : env u = true
      · simp only [morningLoop, hc, henv, if_true] at h
        rcases ih _ _ h r hr with hin | hnew
        · simp only [insertSummary, List.mem_append,
            List.mem_singleton] at hin
          rcases hin with h1 | h1
          · exact Or.inl h1
          · subst h1
            exact Or.inr ⟨List.mem_cons_self _ _, rfl, rfl⟩
        · exact Or.inr ⟨List.mem_cons_of_mem _ hnew.1, hnew.2⟩
      · simp [morningLoop, hc, henv] at h

/-- Every row present after the evening loop was either already stored
or is a fresh `evening_summary` row, marked emailed, for one of the
processed users. -/
theorem eveningLoop_inserts (d : Int) (now : Nat) (env : String → Bool) :
    ∀ (users : List String) (acc res : DB × Nat),
      eveningLoop d now env users acc = .ok res →
      ∀ r ∈ res.1.daily_health_summaries,
        r ∈ acc.1.daily_health_summaries ∨
          (r.user_id ∈ users ∧ r.summary_type = .evening_summary ∧
            r.email_sent = true) := by
  intro users
  induction users with
  | nil =>
    intro acc res h r hr
    simp only [eveningLoop, Except.ok.injEq] at h
    subst h
    exact Or.inl hr
  | cons u rest ih =>
    intro acc res h r hr
    cases hc : calculate_daily_summary u d .evening_summary acc.1 with
    | error e => simp [eveningLoop, hc] at h
    | ok result =>
      by_cases henv : env u = true
      · simp only [eveningLoop, hc, henv, if_true] at h
        rcases ih _ _ h r hr with hin | hnew
        · simp only [insertSummary, List.mem_append,
            List.mem_singleton] at hin
          rcases hin with h1 | h1
          · exact Or.inl h1
          · subst h1
            exact Or.inr ⟨List.mem_cons_self _ _, rfl, rfl⟩
        · exact Or.inr ⟨List.mem_cons_of_mem _ hnew.1, hnew.2⟩
      · simp [eveningLoop, hc, henv] at h

/-- C8: with zero readings for a user in the target date window,
`calculate_daily_summary` fails with the 404 no-data condition, the
batch passes never persist a row for that user (their enumeration only
contains users with readings, so a row surviving a successful pass
either pre-existed or belongs to another user), and the regenerate
path propagates the same no-data failure before any write. -/
theorem claim8 (user : String) (d : Int) (k : SummaryType) (db : DB)
    (h0 : readingsFor db user d = []) :
    calculate_daily_summary user d k db =
      .error ⟨404, "No biomarker data for this date"⟩
  ∧ (∀ (now : Nat) (env : String → Bool) (out : DB × RunSummary),
      generate_morning_briefing d now env db = .ok out →
      ∀ r ∈ out.1.daily_health_summaries,
        r ∈ db.daily_health_summaries ∨ r.user_id ≠ user)
  ∧ (∀ (now : Nat) (env : String → Bool) (out : DB × RunSummary),
      generate_evening_summary d now env db = .ok out →
      ∀ r ∈ out.1.daily_health_summaries,
        r ∈ db.daily_health_summaries ∨ r.user_id ≠ user)
  ∧ (∀ now : Nat, regenerate_summary user d k now db =
      .error ⟨404, "No biomarker data for this date"⟩) := by
  have hcalc : calculate_daily_summary user d k db =
      .error ⟨404, "No biomarker data for this date"⟩ := by
    simp [calculate_daily_summary, h0]
  have hnotmem : user ∉ enumerateUsers db d := fun hmem =>
    enum_user_has_reading db d user hmem h0
  refine ⟨hcalc, ?_, ?_, ?_⟩
  · intro now env out hM r hr
    cases hl : morningLoop d now env (enumerateUsers db d) (db, 0, 0) with
    | error e =>
      cases e with
      | http e0 =>
        simp only [generate_morning_briefing, hl, reduceCtorEq] at hM
      | other m =>
        simp only [generate_morning_briefing, hl, reduceCtorEq] at hM
    | ok trip =>
      obtain ⟨db', created, alerts⟩ := trip
      simp only [generate_morning_briefing, hl, Except.ok.injEq] at hM
      subst hM
      rcases morningLoop_inserts d now env _ _ _ hl r hr with hin | hnew
      · exact Or.inl hin
      · exact Or.inr (fun hq => hnotmem (hq ▸ hnew.1))
  · intro now env out hE r hr
    cases hl : eveningLoop d now env (enumerateUsers db d) (db, 0) with
    | error e =>
      cases e with
      | http e0 =>
        simp only [generate_evening_summary, hl, reduceCtorEq] at hE
      | other m =>
        simp only [generate_evening_summary, hl, reduceCtorEq] at hE
    | ok pair =>
      obtain ⟨db', created⟩ := pair
      simp only [generate_evening_summary, hl, Except.ok.injEq] at hE
      subst hE
      rcases eveningLoop_inserts d now env _ _ _ hl r hr with hin | hnew
      · exact Or.inl hin
      · exact Or.inr (fun hq => hnotmem (hq ▸ hnew.1))
  · intro now
    simp [regenerate_summary, hcalc]

/-- Concrete store for the C8 witness: readings exist only for user
"u" on day 0. -/
def dbW8 : DB :=
  ⟨[⟨"u", "heart_rate", 50, 0⟩], [], [], [], [], [], 0⟩

/-- Witness for C8: the user "ghost" has no readings on day 0, so both
the calculator and the regenerate path fail with the no-data 404. -/
theorem claim8_witness :
    calculate_daily_summary "ghost" 0 SummaryType.morning_briefing dbW8 =
      .error ⟨404, "No biomarker data for this date"⟩ ∧
    regenerate_summary "ghost" 0 SummaryType.morning_briefing 0 dbW8 =
      .error ⟨404, "No biomarker data for this date"⟩ :=
  ⟨(claim8 "ghost" 0 .morning_briefing dbW8 (by with_unfolding_all rfl)).1,
   (claim8 "ghost" 0 .morning_briefing dbW8
     (by with_unfolding_all rfl)).2.2.2 0⟩

/-- Concrete store for C1: two users, each with one reading on day 0,
no reference ranges. -/
def dbC1 : DB :=
  ⟨[⟨"u1", "heart_rate", 50, 0⟩, ⟨"u2", "heart_rate", 50, 0⟩],
   [], [], [], [], [], 0⟩

/-- C1 (failing run): the batch loops have no per-user handler, so one
failure of one user aborts the whole pass.  On `dbC1`, when every insert
succeeds the morning pass processes both users and reports two created
summaries; when the database client raises while persisting the first
user (or even the second), the pass returns the wrapped 500 error
instead of a run summary, and the remaining work is lost.  The evening
pass behaves identically.  Nothing is caught, counted or logged per
user. -/
theorem claim1_bug :
    (generate_morning_briefing 0 0 (fun _ => true) dbC1).map
        (fun p => (p.2.total_users_processed, p.2.summaries_created)) =
      .ok (2, 2)
  ∧ generate_morning_briefing 0 0 (fun u => !(u == "u1")) dbC1 =
      .error ⟨500,
        "Failed to generate morning briefing: insert execute failed"⟩
  ∧ generate_morning_briefing 0 0 (fun u => !(u == "u2")) dbC1 =
      .error ⟨500,
        "Failed to generate morning briefing: insert execute failed"⟩
  ∧ generate_evening_summary 0 0 (fun u => !(u == "u1")) dbC1 =
      .error ⟨500,
        "Failed to generate evening summary: insert execute failed"⟩ := by
  refine ⟨?_, ?_, ?_, ?_⟩ <;> with_unfolding_all rfl

/-- C7 (amended): newly created `morning_briefing` rows start with
`email_sent = false` and the evening pass creates its rows with
`email_sent = true` — so the batch passes never put an
`evening_summary` into the pending-email state — but `regenerate_summary`
resets `email_sent` to `false` on the row it writes regardless of the
summary kind, so a regenerated `evening_summary` row is pending. -/
theorem claim7_amended (d : Int) (now : Nat) (env : String → Bool)
    (db dbE dbR : DB) (user : String) (k : SummaryType)
    (outM outE : DB × RunSummary) (outR : DB × Option SummaryRow)
    (hM : generate_morning_briefing d now env db = .ok outM)
    (hE : generate_evening_summary d now env dbE = .ok outE)
    (hR : regenerate_summary user d k now dbR = .ok outR) :
    (∀ r ∈ outM.1.daily_health_summaries,
      r ∈ db.daily_health_summaries ∨
        (r.summary_type = .morning_briefing ∧ r.email_sent = false))
  ∧ (∀ r ∈ outE.1.daily_health_summaries,
      r ∈ dbE.daily_health_summaries ∨
        (r.summary_type = .evening_summary ∧ r.email_sent = true))
  ∧ (∀ r ∈ outR.1.daily_health_summaries,
      r ∈ dbR.daily_health_summaries ∨ r.email_sent = false) := by
  refine ⟨?_, ?_, ?_⟩
  · intro r hr
    cases hl : morningLoop d now env (enumerateUsers db d) (db, 0, 0) with
    | error e =>
      cases e with
      | http e0 =>
        simp only [generate_morning_briefing, hl, reduceCtorEq] at hM
      | other m =>
        simp only [generate_morning_briefing, hl, reduceCtorEq] at hM
    | ok trip =>
      obtain ⟨db', created, alerts⟩ := trip
      simp only [generate_morning_briefing, hl, Except.ok.injEq] at hM
      subst hM
      rcases morningLoop_inserts d now env _ _ _ hl r hr with hin | hnew
      · exact Or.inl hin
      · exact Or.inr hnew.2
  · intro r hr
    cases hl : eveningLoop d now env (enumerateUsers dbE d) (dbE, 0) with
    | error e =>
      cases e with
      | http e0 =>
        simp only [generate_evening_summary, hl, reduceCtorEq] at hE
      | other m =>
        simp only [generate_evening_summary, hl, reduceCtorEq] at hE
    | ok pair =>
      obtain ⟨db', created⟩ := pair
      simp only [generate_evening_summary, hl, Except.ok.injEq] at hE
      subst hE
      rcases eveningLoop_inserts d now env _ _ _ hl r hr with hin | hnew
      · exact Or.inl hin
      · exact Or.inr hnew.2
  · intro r hr
    cases hc : calculate_daily_summary user d k dbR with
    | error e => simp only [regenerate_summary, hc, reduceCtorEq] at hR
    | ok result =>
      cases hex : dbR.daily_health_summaries.filter (fun r =>
          r.user_id == user && r.summary_date == d &&
            r.summary_type == k) with
      | cons e0 rest =>
        simp only [regenerate_summary, hc, hex, Except.ok.injEq] at hR
        subst hR
        simp only [updateSummaryRow] at hr
        obtain ⟨x, hx, hfx⟩ := List.mem_map.mp hr
        by_cases hid : (x.id == e0.id) = true
        · rw [if_pos hid] at hfx
          exact Or.inr (hfx ▸ rfl)
        · rw [if_neg hid] at hfx
          exact Or.inl (hfx ▸ hx)
      | nil =>
        simp only [regenerate_summary, hc, hex, Except.ok.injEq] at hR
        subst hR
        simp only [insertSummary, List.mem_append,
          List.mem_singleton] at hr
        rcases hr with h1 | h1
        · exact Or.inl h1
        · exact Or.inr (h1 ▸ rfl)

/-- The store of the C7 counterexample: an `evening_summary` for user
"u" on day 0 already stored with `email_sent = true`, and readings so
that regeneration succeeds. -/
def dbC7 : DB :=
  ⟨[⟨"u", "heart_rate", 50, 0⟩], [],
   [⟨0, "u", 0, .evening_summary, ⟨0, .evening_summary, [], [], []⟩,
     .good, true, none, 0⟩],
   [], [], [], 1⟩

/-- C7 (counterexample): regenerating the evening summary of `dbC7`
leaves the store with exactly one `evening_summary` row whose
`email_sent` is `false` — an evening summary in the pending-email
state, contradicting the claim that no operation of the core ever
creates one. -/
theorem claim7_counterexample :
    (regenerate_summary "u" 0 .evening_summary 1 dbC7).map
        (fun out => out.1.daily_health_summaries.map
          (fun r => (r.summary_type, r.email_sent))) =
      .ok [(.evening_summary, false)] := by
  with_unfolding_all rfl

/-- Shared one-user store for the regeneration/pass witnesses. -/
def dbOne : DB := ⟨[⟨"u", "heart_rate", 50, 0⟩], [], [], [], [], [], 0⟩

/-- The `summary_data` the calculator produces on `dbOne` for the
morning kind. -/
def sdMorn : SummaryData :=
  ⟨0, .morning_briefing, [("heart_rate", .standard 50 50 50 1 .normal)],
   [], []⟩

/-- The `summary_data` the calculator produces on `dbOne` for the
evening kind. -/
def sdEve : SummaryData :=
  ⟨0, .evening_summary, [("heart_rate", .standard 50 50 50 1 .normal)],
   [], []⟩

/-- The morning row the pass on `dbOne` inserts. -/
def rowMorn : SummaryRow :=
  ⟨0, "u", 0, .morning_briefing, sdMorn, .good, false, none, 5⟩

/-- The evening row the pass on `dbOne` inserts. -/
def rowEve : SummaryRow :=
  ⟨0, "u", 0, .evening_summary, sdEve, .good, true, none, 5⟩

/-- The store after one successful morning insert on `dbOne`. -/
def dbAfterM : DB :=
  ⟨[⟨"u", "heart_rate", 50, 0⟩], [], [rowMorn], [], [], [], 1⟩

/-- The store after one successful evening insert on `dbOne`. -/
def dbAfterE : DB :=
  ⟨[⟨"u", "heart_rate", 50, 0⟩], [], [rowEve], [], [], [], 1⟩

/-- Witness for C7 on the concrete runs over `dbOne`. -/
theorem claim7_witness :
    rowMorn ∈ dbOne.daily_health_summaries ∨
      (rowMorn.summary_type = .morning_briefing ∧
        rowMorn.email_sent = false) :=
  (claim7_amended 0 5 (fun _ => true) dbOne dbOne dbOne "u"
    .morning_briefing (dbAfterM, ⟨1, 1, some 0⟩) (dbAfterE, ⟨1, 1, none⟩)
    (dbAfterM, some rowMorn)
    (by with_unfolding_all rfl) (by with_unfolding_all rfl)
    (by with_unfolding_all rfl)).1 rowMorn (by simp [dbAfterM])

/-- Filtering after mapping a function that preserves the predicate
keeps the number of kept elements. -/
theorem length_filter_map_eq {α : Type} (f : α → α) (p : α → Bool)
    (h : ∀ x, p (f x) = p x) :
    ∀ l : List α, ((l.map f).filter p).length = (l.filter p).length := by
  intro l
  induction l with
  | nil => rfl
  | cons x xs ih =>
    simp only [List.map_cons, List.filter_cons, h x]
    cases hp : p x <;> simp [ih]

/-- C6 (amended): `regenerate_summary` inserts only when no row exists
for the `(user, date, kind)` key and otherwise updates the first
existing row in place, so a successful regeneration leaves the store
with `max 1 n` rows for that key, `n` the number before — regeneration
never stacks duplicates.  (The batch passes, by contrast, insert
unconditionally; see the counterexample.) -/
theorem claim6_amended (user : String) (d : Int) (k : SummaryType)
    (now : Nat) (db : DB) (out : DB × Option SummaryRow)
    (h : regenerate_summary user d k now db = .ok out) :
    summaryCount out.1 user d k = max 1 (summaryCount db user d k) := by
  cases hc : calculate_daily_summary user d k db with
  | error e => simp only [regenerate_summary, hc, reduceCtorEq] at h
  | ok result =>
    cases hex : db.daily_health_summaries.filter (fun r =>
        r.user_id == user && r.summary_date == d &&
          r.summary_type == k) with
    | nil =>
      simp only [regenerate_summary, hc, hex, Except.ok.injEq] at h
      subst h
      simp only [summaryCount, insertSummary, List.filter_append, hex,
        List.nil_append]
      simp
    | cons e0 rest =>
      simp only [regenerate_summary, hc, hex, Except.ok.injEq] at h
      subst h
      have hcount : summaryCount db user d k = rest.length + 1 := by
        simp [summaryCount, hex]
      have hpres : summaryCount
          (updateSummaryRow db e0.id result.summary_data
            result.overall_status) user d k = summaryCount db user d k := by
        simp only [summaryCount, updateSummaryRow]
        apply length_filter_map_eq
        intro x
        by_cases hid : (x.id == e0.id) = true
        · rw [if_pos hid]
        · rw [if_neg hid]
      rw [hpres, hcount]
      omega

/-- The store of the C6 counterexample: the morning summary for
`("u", day 0)` already exists. -/
def dbDup : DB :=
  ⟨[⟨"u", "heart_rate", 50, 0⟩], [],
   [⟨0, "u", 0, .morning_briefing, ⟨0, .morning_briefing, [], [], []⟩,
     .good, false, none, 0⟩],
   [], [], [], 1⟩

/-- C6 (counterexample): re-running the morning pass over `dbDup`
inserts a second `morning_briefing` row for the same
`(user, date, kind)` key — the batch passes do not check for an
existing row, so the key now has two rows where the claim allows at
most one. -/
theorem claim6_counterexample :
    (generate_morning_briefing 0 1 (fun _ => true) dbDup).map
        (fun p => summaryCount p.1 "u" 0 .morning_briefing) = .ok 2 ∧
    summaryCount dbDup "u" 0 .morning_briefing = 1 := by
  constructor <;> with_unfolding_all rfl

/-- Witness for C6: regenerating over the summary-free `dbOne` yields
one row for the key, `max 1 0`. -/
theorem claim6_witness :
    summaryCount dbAfterM "u" 0 .morning_briefing =
      max 1 (summaryCount dbOne "u" 0 .morning_briefing) :=
  claim6_amended "u" 0 .morning_briefing 5 dbOne (dbAfterM, some rowMorn)
    (by with_unfolding_all rfl)

/-- C9 (amended): provided both the provider and the patient have a
profile row, a provider without an accepted connection to the patient
is refused with the 403 forbidden condition by the connection check,
and both provider-proxied reads propagate that error without running
the summary query — no patient data is returned.  (When a profile row
is missing the call fails with a 404 not-found condition instead; see
the counterexample.) -/
theorem claim9_amended (provUser patUser : String) (d sd ed : Int)
    (t : Option SummaryType) (db : DB) (pp pat : ProfileRow)
    (l1 l2 : List ProfileRow)
    (hp : db.providers.filter (fun p => p.user_id == provUser) = pp :: l1)
    (hq : db.patients.filter (fun p => p.user_id == patUser) = pat :: l2)
    (hc : ∀ c ∈ db.patient_provider_connections,
      c.provider_id = pp.id → c.patient_id = pat.id →
        c.status ≠ "accepted") :
    _verify_provider_patient_connection provUser patUser db =
      .error ⟨403, "No accepted connection with this patient"⟩
  ∧ get_patient_summary_for_provider provUser patUser d t db =
      .error ⟨403, "No accepted connection with this patient"⟩
  ∧ get_patient_summaries_range_for_provider provUser patUser sd ed t db =
      .error ⟨403, "No accepted connection with this patient"⟩ := by
  have hv : _verify_provider_patient_connection provUser patUser db =
      .error ⟨403, "No accepted connection with this patient"⟩ := by
    cases hcf : db.patient_provider_connections.filter (fun c =>
        c.provider_id == pp.id && c.patient_id == pat.id) with
    | nil => simp only [_verify_provider_patient_connection, hp, hq, hcf]
    | cons c cs =>
      simp only [_verify_provider_patient_connection, hp, hq, hcf]
      have hcmem : c ∈ db.patient_provider_connections.filter (fun c =>
          c.provider_id == pp.id && c.patient_id == pat.id) := by
        rw [hcf]; exact List.mem_cons_self c cs
      have hmf := List.mem_filter.mp hcmem
      have hpid : c.provider_id = pp.id ∧ c.patient_id = pat.id := by
        simpa using hmf.2
      rw [if_neg (hc c hmf.1 hpid.1 hpid.2)]
  exact ⟨hv, by simp [get_patient_summary_for_provider, hv],
    by simp [get_patient_summaries_range_for_provider, hv]⟩

/-- The store of the C9 counterexample: the requested patient exists,
no provider profile and no connection at all. -/
def dbN9 : DB := ⟨[], [], [], [], [⟨"pat", 0⟩], [], 0⟩

/-- C9 (counterexample): on `dbN9` the provider "prov" has no
connection with status "accepted" to "pat", yet the provider-proxied
read fails with the 404 not-found condition (missing provider
profile), not with a forbidden condition as the claim states.  (No
patient data is returned either way.) -/
theorem claim9_counterexample :
    get_patient_summary_for_provider "prov" "pat" 0 none dbN9 =
      .error ⟨404, "Provider profile not found"⟩ ∧
    dbN9.patient_provider_connections = [] := by
  constructor <;> with_unfolding_all rfl

/-- The store of the C9 witness: both profiles exist and the only
connection row is still pending. -/
def dbW9 : DB :=
  ⟨[], [], [], [⟨"prov", 1⟩], [⟨"pat", 2⟩], [⟨1, 2, "pending"⟩], 0⟩

/-- Witness for C9 on `dbW9`. -/
theorem claim9_witness :
    _verify_provider_patient_connection "prov" "pat" dbW9 =
      .error ⟨403, "No accepted connection with this patient"⟩
  ∧ get_patient_summary_for_provider "prov" "pat" 0 none dbW9 =
      .error ⟨403, "No accepted connection with this patient"⟩
  ∧ get_patient_summaries_range_for_provider "prov" "pat" 0 0 none dbW9 =
      .error ⟨403, "No accepted connection with this patient"⟩ :=
  claim9_amended "prov" "pat" 0 0 0 none dbW9 ⟨"prov", 1⟩ ⟨"pat", 2⟩ [] []
    (by with_unfolding_all rfl) (by with_unfolding_all rfl) (by decide)

/-- The `metrics` key written by one loop iteration for a biomarker
type (the blood-pressure sub-metrics share one key, steps and sleep
use display names, everything else its own name). -/
def derivedKey (b : String) : String :=
  if b = "blood_pressure_systolic" then "blood_pressure"
  else if b = "blood_pressure_diastolic" then "blood_pressure"
  else if b = "steps" then "steps"
  else if b = "sleep_duration" then "sleep"
  else b

theorem dictFind_dictSet_self (k : String) (v : MetricBlock) :
    ∀ m, dictFind (dictSet m k v) k = some v := by
  intro m
  induction m with
  | nil => simp [dictSet, dictFind]
  | cons p rest ih =>
    obtain ⟨k', v'⟩ := p
    by_cases hk : k' = k
    · simp [dictSet, hk, dictFind]
    · simp only [dictSet, if_neg hk, dictFind, List.find?]
      have : (k' == k) = false := by simpa using hk
      simp only [this, cond_false]
      exact ih

theorem dictFind_dictSet_ne (k q : String) (v : MetricBlock)
    (hq : q ≠ k) : ∀ m, dictFind (dictSet m k v) q = dictFind m q := by
  intro m
  induction m with
  | nil =>
    have : (k == q) = false := by simpa using fun he => hq he.symm
    simp [dictSet, dictFind, List.find?, this]
  | cons p rest ih =>
    obtain ⟨k', v'⟩ := p
    by_cases hk : k' = k
    · subst hk
      have : (k' == q) = false := by simpa using fun he => hq he.symm
      simp [dictSet, dictFind, List.find?, this]
    · simp only [dictSet, if_neg hk, dictFind, List.find?]
      cases hkq : (k' == q) with
      | true => simp
      | false => simpa [dictFind] using ih

theorem dictFind_dictModify_ne (k q : String) (f : MetricBlock → MetricBlock)
    (hq : q ≠ k) : ∀ m, dictFind (dictModify m k f) q = dictFind m q := by
  intro m
  induction m with
  | nil => simp [dictModify]
  | cons p rest ih =>
    obtain ⟨k', v'⟩ := p
    by_cases hk : k' = k
    · subst hk
      have : (k' == q) = false := by simpa using fun he => hq he.symm
      simp [dictModify, dictFind, List.find?, this]
    · simp only [dictModify, if_neg hk, dictFind, List.find?]
      cases hkq : (k' == q) with
      | true => simp
      | false => simpa [dictFind] using ih

/-- A loop iteration only touches the key derived from its biomarker:
lookups at any other key are unchanged. -/
theorem stepBiomarker_metrics_other (db : DB) (st : LoopState)
    (bv : String × List ℚ) (q : String) (h : q ≠ derivedKey bv.1) :
    dictFind (stepBiomarker db st bv).metrics q = dictFind st.metrics q := by
  simp only [stepBiomarker]
  by_cases h1 : bv.1 = "blood_pressure_systolic"
  · have hq : q ≠ "blood_pressure" := by simpa [derivedKey, h1] using h
    simp only [if_pos h1, dictFind_dictModify_ne _ _ _ hq]
    by_cases hm : dictMember "blood_pressure" st.metrics = true
    · rw [if_pos hm]
    · rw [if_neg hm, dictFind_dictSet_ne _ _ _ hq]
  · by_cases h2 : bv.1 = "blood_pressure_diastolic"
    · have hq : q ≠ "blood_pressure" := by
        simpa [derivedKey, h1, h2] using h
      simp only [if_neg h1, if_pos h2, dictFind_dictModify_ne _ _ _ hq]
      by_cases hm : dictMember "blood_pressure" st.metrics = true
      · rw [if_pos hm]
      · rw [if_neg hm, dictFind_dictSet_ne _ _ _ hq]
    · by_cases h3 : bv.1 = "steps"
      · have hq : q ≠ "steps" := by simpa [derivedKey, h1, h2, h3] using h
        simp only [if_neg h1, if_neg h2, if_pos h3,
          dictFind_dictSet_ne _ _ _ hq]
      · by_cases h4 : bv.1 = "sleep_duration"
        · have hq : q ≠ "sleep" := by
            simpa [derivedKey, h1, h2, h3, h4] using h
          simp only [if_neg h1, if_neg h2, if_neg h3, if_pos h4,
            dictFind_dictSet_ne _ _ _ hq]
        · have hq : q ≠ bv.1 := by
            simpa [derivedKey, h1, h2, h3, h4] using h
          simp only [if_neg h1, if_neg h2, if_neg h3, if_neg h4,
            dictFind_dictSet_ne _ _ _ hq]

/-- Folding further groups whose derived keys avoid `q` leaves the
lookup at `q` unchanged. -/
theorem foldl_metrics_other (db : DB) (g : List (String × List ℚ)) :
    ∀ (st : LoopState) (q : String), (∀ bv ∈ g, q ≠ derivedKey bv.1) →
      dictFind ((g.foldl (stepBiomarker db) st).metrics) q =
        dictFind st.metrics q := by
  induction g with
  | nil => intro st q _; rfl
  | cons bv rest ih =>
    intro st q h
    rw [List.foldl_cons,
      ih _ q (fun x hx => h x (List.mem_cons_of_mem _ hx)),
      stepBiomarker_metrics_other db st bv q (h bv (List.mem_cons_self _ _))]

theorem derivedKey_eq_steps (b : String) (h : derivedKey b = "steps") :
    b = "steps" := by
  by_cases h1 : b = "blood_pressure_systolic"
  · rw [derivedKey, if_pos h1] at h; exact absurd h (by decide)
  · by_cases h2 : b = "blood_pressure_diastolic"
    · rw [derivedKey, if_neg h1, if_pos h2] at h; exact absurd h (by decide)
    · by_cases h3 : b = "steps"
      · exact h3
      · by_cases h4 : b = "sleep_duration"
        · rw [derivedKey, if_neg h1, if_neg h2, if_neg h3, if_pos h4] at h
          exact absurd h (by decide)
        · rw [derivedKey, if_neg h1, if_neg h2, if_neg h3, if_neg h4] at h
          exact absurd h h3

/-- Keys of a grouping accumulator. -/
def keysOf (g : List (String × List ℚ)) : List String := g.map Prod.fst

theorem addReading_keys (bt : String) (v : ℚ) :
    ∀ acc, keysOf (addReading acc bt v) =
      if bt ∈ keysOf acc then keysOf acc else keysOf acc ++ [bt] := by
  intro acc
  induction acc with
  | nil => simp [addReading, keysOf]
  | cons p rest ih =>
    obtain ⟨kk, vs⟩ := p
    by_cases hk : kk = bt
    · subst hk
      simp [addReading, keysOf]
    · simp only [addReading, if_neg hk, keysOf, List.map_cons] at ih ⊢
      rw [ih]
      have hmm : (bt ∈ kk :: List.map Prod.fst rest) ↔
          bt ∈ List.map Prod.fst rest :=
        ⟨fun hx => (List.mem_cons.mp hx).resolve_left
          (fun he => hk he.symm),
         fun hx => List.mem_cons_of_mem _ hx⟩
      by_cases hmem : bt ∈ List.map Prod.fst rest
      · rw [if_pos hmem, if_pos (hmm.mpr hmem)]
      · rw [if_neg hmem, if_neg (fun hx => hmem (hmm.mp hx)),
          List.cons_append]

/-- Grouping never produces a duplicate biomarker key. -/
theorem groupReadings_keys_nodup (rows : List BiomarkerRow) :
    (keysOf (groupReadings rows)).Nodup := by
  suffices h : ∀ acc : List (String × List ℚ), (keysOf acc).Nodup →
      (keysOf (rows.foldl
        (fun acc r => addReading acc r.biomarker_type r.value) acc)).Nodup by
    exact h [] (by simp [keysOf])
  induction rows with
  | nil => intro acc h; simpa using h
  | cons row rest ih =>
    intro acc h
    rw [List.foldl_cons]
    apply ih
    rw [addReading_keys]
    by_cases hmem : row.biomarker_type ∈ keysOf acc
    · rwa [if_pos hmem]
    · rw [if_neg hmem]
      exact List.Nodup.append h (List.nodup_singleton _)
        (by simpa [List.disjoint_singleton] using hmem)

/-- The loop iteration for the steps group: the block stores the
truncated total, the fixed goal, the goal percentage, and the status
of the classifier applied to the group mean. -/
theorem stepBiomarker_metrics_steps (db : DB) (st : LoopState)
    (vs : List ℚ) :
    dictFind (stepBiomarker db st ("steps", vs)).metrics "steps" =
      some (.steps (pyInt vs.sum) 10000
        (round2 ((pyInt vs.sum : ℚ) / 10000 * 100))
        (statusForValue db "steps" (vs.sum / (vs.length : ℚ)))) := by
  simp only [stepBiomarker, reduceIte]
  exact dictFind_dictSet_self _ _ _

/-- The goal percentage of an integral total is exact: rounding to two
decimals changes nothing. -/
theorem round2_centi (t : Int) :
    round2 ((t : ℚ) / 10000 * 100) = (t : ℚ) / 100 := by
  have h1 : ((t : ℚ) / 10000 * 100) * 100 = (t : ℚ) := by ring
  have h2 : ((t : ℚ) / 10000 * 100 * 100).floor = t := by
    rw [h1, Rat.floor_def', ← Rat.floor_def, Int.floor_intCast]
  simp only [round2]
  rw [h2, h1, sub_self, if_pos (by norm_num : (0 : ℚ) < 1 / 2)]

/-- C4 (amended): for every non-empty same-day steps group, the steps
block carries `total` equal to the truncated sum of the readings (not
their mean) and `percentage` exactly `(total / 10000) * 100`, but its
`status` is the generic range classifier applied to the mean of the
readings (defaulting to `normal` when no steps range row exists) — not a
goal-percentage-band classification. -/
theorem claim4_amended (db : DB) (user : String) (d : Int)
    (k : SummaryType) (r : CalcResult) (vs : List ℚ)
    (hr : calculate_daily_summary user d k db = .ok r)
    (hmem : ("steps", vs) ∈ groupReadings (readingsFor db user d)) :
    dictFind r.summary_data.metrics "steps" =
      some (.steps (pyInt vs.sum) 10000
        (round2 ((pyInt vs.sum : ℚ) / 10000 * 100))
        (statusForValue db "steps" (vs.sum / (vs.length : ℚ))))
  ∧ round2 ((pyInt vs.sum : ℚ) / 10000 * 100) = (pyInt vs.sum : ℚ) / 100 := by
  refine ⟨?_, round2_centi _⟩
  by_cases he : (readingsFor db user d).isEmpty
  · simp [calculate_daily_summary, he] at hr
  · simp only [calculate_daily_summary] at hr
    rw [if_neg (by simpa using he)] at hr
    simp only [Except.ok.injEq] at hr
    subst hr
    obtain ⟨pre, post, hg⟩ := List.append_of_mem hmem
    have hnd := groupReadings_keys_nodup (readingsFor db user d)
    rw [hg] at hnd
    have hpostkeys : "steps" ∉ keysOf post := by
      simp only [keysOf, List.map_append, List.map_cons] at hnd
      have := List.Nodup.of_append_right hnd
      exact (List.nodup_cons.mp this).1
    have hpost : ∀ bv ∈ post, ("steps" : String) ≠ derivedKey bv.1 := by
      intro bv hbv heq
      exact hpostkeys (derivedKey_eq_steps bv.1 heq.symm ▸
        List.mem_map_of_mem Prod.fst hbv)
    simp only [hg, List.foldl_append, List.foldl_cons]
    rw [foldl_metrics_other db post _ "steps" hpost,
      stepBiomarker_metrics_steps]

/-- The steps reference range of the C4 counterexample (it satisfies
the nesting invariant). -/
def rangeSteps : RangeRow := ⟨"steps", 4000, 15000, 8000, 12000, 1000, 100000⟩

/-- One steps reading of 10000. -/
def dbA4 : DB := ⟨[⟨"u", "steps", 10000, 0⟩], [rangeSteps], [], [], [], [], 0⟩

/-- Two steps readings with the same total 10000 but mean 5000. -/
def dbB4 : DB :=
  ⟨[⟨"u", "steps", 100, 0⟩, ⟨"u", "steps", 9900, 0⟩], [rangeSteps],
   [], [], [], [], 0⟩

/-- C4 (counterexample): `dbA4` and `dbB4` carry the same daily total
(10000 steps) and hence the same goal percentage (100), yet the code
assigns them different statuses — `optimal` versus `normal` — because
the status is the generic range classifier applied to the mean of the
readings (10000 versus 5000), not a function of the goal-percentage
band.  This refutes the claim that the steps status is determined by
goal-percentage bands rather than by classifying the mean of the readings. -/
theorem claim4_counterexample :
    (calculate_daily_summary "u" 0 .morning_briefing dbA4).map
        (fun r => dictFind r.summary_data.metrics "steps") =
      .ok (some (.steps 10000 10000 100 .optimal))
  ∧ (calculate_daily_summary "u" 0 .morning_briefing dbB4).map
        (fun r => dictFind r.summary_data.metrics "steps") =
      .ok (some (.steps 10000 10000 100 .normal))
  ∧ statusForValue dbB4 "steps" 5000 = .normal
  ∧ Status.optimal ≠ Status.normal := by
  refine ⟨?_, ?_, ?_, by decide⟩ <;> with_unfolding_all rfl

/-- The result the calculator produces on `dbB4`. -/
def rB4 : CalcResult :=
  ⟨⟨0, .morning_briefing, [("steps", .steps 10000 10000 100 .normal)],
    [], []⟩, 2, ["steps"], false, false, .good⟩

set_option maxRecDepth 4096 in
/-- Witness for C4 on the concrete store `dbB4`. -/
theorem claim4_witness :
    dictFind rB4.summary_data.metrics "steps" =
      some (.steps (pyInt ([100, 9900] : List ℚ).sum) 10000
        (round2 ((pyInt ([100, 9900] : List ℚ).sum : ℚ) / 10000 * 100))
        (statusForValue dbB4 "steps"
          (([100, 9900] : List ℚ).sum / (([100, 9900] : List ℚ).length : ℚ))))
  ∧ round2 ((pyInt ([100, 9900] : List ℚ).sum : ℚ) / 10000 * 100) =
      (pyInt ([100, 9900] : List ℚ).sum : ℚ) / 100 :=
  claim4_amended dbB4 "u" 0 .morning_briefing rB4 [100, 9900]
    (by with_unfolding_all rfl)
    (by
      have hgr : groupReadings (readingsFor dbB4 "u" 0) =
          [("steps", ([100, 9900] : List ℚ))] := by with_unfolding_all rfl
      rw [hgr]
      exact List.mem_cons_self _ _)

theorem addReading_new (a : String) (v : ℚ) :
    ∀ acc : List (String × List ℚ), a ∉ keysOf acc →
      addReading acc a v = acc ++ [(a, [v])] := by
  intro acc
  induction acc with
  | nil => intro _; rfl
  | cons p rest ih =>
    intro h
    obtain ⟨kk, vs⟩ := p
    have hk : ¬(kk = a) := fun he => h (by simp [keysOf, he])
    simp only [addReading, if_neg hk, List.cons_append]
    rw [ih (fun hm => h (List.mem_cons_of_mem _ hm))]

theorem addReading_append_last (a : String) (v : ℚ) :
    ∀ (pre : List (String × List ℚ)) (cur : List ℚ), a ∉ keysOf pre →
      addReading (pre ++ [(a, cur)]) a v = pre ++ [(a, cur ++ [v])] := by
  intro pre
  induction pre with
  | nil => intro cur _; simp [addReading]
  | cons p rest ih =>
    intro cur h
    obtain ⟨kk, vs⟩ := p
    have hk : ¬(kk = a) := fun he => h (by simp [keysOf, he])
    simp only [List.cons_append, addReading, if_neg hk, List.append_eq]
    rw [ih cur (fun hm => h (List.mem_cons_of_mem _ hm))]

theorem foldl_group_same (user a : String) (d : Int) :
    ∀ (vals : List ℚ) (pre : List (String × List ℚ)) (cur : List ℚ),
      a ∉ keysOf pre →
      (vals.map (fun v => BiomarkerRow.mk user a v d)).foldl
          (fun acc r => addReading acc r.biomarker_type r.value)
          (pre ++ [(a, cur)]) =
        pre ++ [(a, cur ++ vals)] := by
  intro vals
  induction vals with
  | nil => intro pre cur _; simp
  | cons x xs ih =>
    intro pre cur h
    simp only [List.map_cons, List.foldl_cons]
    rw [show addReading (pre ++ [(a, cur)])
          (BiomarkerRow.mk user a x d).biomarker_type
          (BiomarkerRow.mk user a x d).value =
        addReading (pre ++ [(a, cur)]) a x from rfl,
      addReading_append_last a x pre cur h, ih pre (cur ++ [x]) h]
    simp

/-- Grouping a run of readings of one type followed by a run of a
second type yields exactly the two groups, in encounter order. -/
theorem groupReadings_pair (user a b : String) (d : Int) (vs vd : List ℚ)
    (hvs : vs ≠ []) (hvd : vd ≠ []) (hab : a ≠ b) :
    groupReadings ((vs.map fun v => BiomarkerRow.mk user a v d) ++
        (vd.map fun v => BiomarkerRow.mk user b v d)) =
      [(a, vs), (b, vd)] := by
  obtain ⟨z, zs, rfl⟩ := List.exists_cons_of_ne_nil hvs
  obtain ⟨y, ys, rfl⟩ := List.exists_cons_of_ne_nil hvd
  simp only [groupReadings, List.foldl_append, List.map_cons,
    List.foldl_cons]
  rw [show addReading [] (BiomarkerRow.mk user a z d).biomarker_type
        (BiomarkerRow.mk user a z d).value = [] ++ [(a, [z])] from rfl,
    foldl_group_same user a d zs [] [z] (by simp [keysOf])]
  rw [show addReading ([] ++ [(a, [z] ++ zs)])
        (BiomarkerRow.mk user b y d).biomarker_type
        (BiomarkerRow.mk user b y d).value =
      addReading ([(a, [z] ++ zs)]) b y from rfl]
  rw [addReading_new b y [(a, [z] ++ zs)]
      (by simp [keysOf]; exact fun he => hab he.symm),
    show ([(a, [z] ++ zs)] ++ [(b, [y])] :
        List (String × List ℚ)) =
      [(a, [z] ++ zs)] ++ [(b, [y])] from rfl,
    foldl_group_same user b d ys [(a, [z] ++ zs)] [y]
      (by simp [keysOf]; exact fun he => hab he.symm)]
  simp

/-- Loop computation when systolic is processed first: the combined
block keeps the systolic count and the systolic status; the second
iteration only fills in `diastolic_avg`. -/
theorem bp_sys_first (db : DB) (vs vd : List ℚ) :
    dictFind ((List.foldl (stepBiomarker db) ⟨[], [], [], false, false⟩
        [("blood_pressure_systolic", vs),
         ("blood_pressure_diastolic", vd)]).metrics) "blood_pressure" =
      some (.bp vs.length
        (statusForValue db "blood_pressure_systolic" (vs.sum / (vs.length : ℚ)))
        (some (round2 (vs.sum / (vs.length : ℚ))))
        (some (round2 (vd.sum / (vd.length : ℚ))))) := by
  simp [stepBiomarker, reduceIte, dictMember, dictSet, dictModify,
    dictFind, setSys, setDia, List.find?]

/-- Loop computation when diastolic is processed first: the combined
block keeps the diastolic count and the diastolic status. -/
theorem bp_dia_first (db : DB) (vs vd : List ℚ) :
    dictFind ((List.foldl (stepBiomarker db) ⟨[], [], [], false, false⟩
        [("blood_pressure_diastolic", vd),
         ("blood_pressure_systolic", vs)]).metrics) "blood_pressure" =
      some (.bp vd.length
        (statusForValue db "blood_pressure_diastolic" (vd.sum / (vd.length : ℚ)))
        (some (round2 (vs.sum / (vs.length : ℚ))))
        (some (round2 (vd.sum / (vd.length : ℚ))))) := by
  simp [stepBiomarker, reduceIte, dictMember, dictSet, dictModify,
    dictFind, setSys, setDia, List.find?]

/-- C5 (amended): when a day has both blood-pressure sub-metrics, the
output carries a single combined "blood_pressure" block with both
sub-metric averages in their named fields, but its `readings_count`
and `status` are those of whichever sub-metric is processed first (the
one whose readings appear first) — the status is not the more severe
of the two.  The two conjuncts give the two processing orders. -/
theorem claim5_amended (user : String) (d : Int) (k : SummaryType)
    (db db2 : DB) (vs vd : List ℚ) (r r2 : CalcResult)
    (hvs : vs ≠ []) (hvd : vd ≠ [])
    (hb : db.biomarkers =
      (vs.map fun v => BiomarkerRow.mk user "blood_pressure_systolic" v d) ++
      (vd.map fun v => BiomarkerRow.mk user "blood_pressure_diastolic" v d))
    (hb2 : db2.biomarkers =
      (vd.map fun v => BiomarkerRow.mk user "blood_pressure_diastolic" v d) ++
      (vs.map fun v => BiomarkerRow.mk user "blood_pressure_systolic" v d))
    (hr : calculate_daily_summary user d k db = .ok r)
    (hr2 : calculate_daily_summary user d k db2 = .ok r2) :
    dictFind r.summary_data.metrics "blood_pressure" =
      some (.bp vs.length
        (statusForValue db "blood_pressure_systolic" (vs.sum / (vs.length : ℚ)))
        (some (round2 (vs.sum / (vs.length : ℚ))))
        (some (round2 (vd.sum / (vd.length : ℚ)))))
  ∧ dictFind r2.summary_data.metrics "blood_pressure" =
      some (.bp vd.length
        (statusForValue db2 "blood_pressure_diastolic" (vd.sum / (vd.length : ℚ)))
        (some (round2 (vs.sum / (vs.length : ℚ))))
        (some (round2 (vd.sum / (vd.length : ℚ))))) := by
  have hf : readingsFor db user d = db.biomarkers := by
    apply List.filter_eq_self.mpr
    intro x hx
    rw [hb] at hx
    simp only [List.mem_append, List.mem_map] at hx
    rcases hx with ⟨v, -, rfl⟩ | ⟨v, -, rfl⟩ <;> simp
  have hf2 : readingsFor db2 user d = db2.biomarkers := by
    apply List.filter_eq_self.mpr
    intro x hx
    rw [hb2] at hx
    simp only [List.mem_append, List.mem_map] at hx
    rcases hx with ⟨v, -, rfl⟩ | ⟨v, -, rfl⟩ <;> simp
  have hg : groupReadings (readingsFor db user d) =
      [("blood_pressure_systolic", vs), ("blood_pressure_diastolic", vd)] := by
    rw [hf, hb]
    exact groupReadings_pair user _ _ d vs vd hvs hvd (by decide)
  have hg2 : groupReadings (readingsFor db2 user d) =
      [("blood_pressure_diastolic", vd), ("blood_pressure_systolic", vs)] := by
    rw [hf2, hb2]
    exact groupReadings_pair user _ _ d vd vs hvd hvs (by decide)
  obtain ⟨z, zs, hzs⟩ := List.exists_cons_of_ne_nil hvs
  obtain ⟨y, ys, hys⟩ := List.exists_cons_of_ne_nil hvd
  have hne : ¬(readingsFor db user d).isEmpty = true := by
    rw [hf, hb, hzs]
    simp
  have hne2 : ¬(readingsFor db2 user d).isEmpty = true := by
    rw [hf2, hb2, hys]
    simp
  constructor
  · simp only [calculate_daily_summary] at hr
    rw [if_neg hne] at hr
    simp only [Except.ok.injEq] at hr
    subst hr
    simp only [hg]
    exact bp_sys_first db vs vd
  · simp only [calculate_daily_summary] at hr2
    rw [if_neg hne2] at hr2
    simp only [Except.ok.injEq] at hr2
    subst hr2
    simp only [hg2]
    exact bp_dia_first db2 vs vd

/-- The store of the C5 counterexample: systolic average 95 (normal),
diastolic average 200 (critical), systolic readings first. -/
def dbX5 : DB :=
  ⟨[⟨"u", "blood_pressure_systolic", 95, 0⟩,
    ⟨"u", "blood_pressure_diastolic", 200, 0⟩],
   [⟨"blood_pressure_systolic", 90, 140, 100, 120, 70, 180⟩,
    ⟨"blood_pressure_diastolic", 60, 90, 70, 80, 40, 120⟩],
   [], [], [], [], 0⟩

/-- C5 (counterexample): on `dbX5` the diastolic sub-metric is
critical (the `has_critical_values` of the run is true and `overall_status`
is critical), yet the combined "blood_pressure" block carries status
`normal` — the status of the first-processed (systolic) sub-metric —
not the more severe of the two as the claim states. -/
theorem claim5_counterexample :
    (calculate_daily_summary "u" 0 .morning_briefing dbX5).map
        (fun r => (dictFind r.summary_data.metrics "blood_pressure",
          r.has_critical_values, r.overall_status)) =
      .ok (some (.bp 1 .normal (some 95) (some 200)), true, .critical)
  ∧ Status.normal ≠ Status.critical :=
  ⟨by with_unfolding_all rfl, by decide⟩

/-- The C5 witness store, systolic readings first. -/
def dbBP : DB :=
  ⟨[⟨"u", "blood_pressure_systolic", 95, 0⟩,
    ⟨"u", "blood_pressure_diastolic", 65, 0⟩],
   [⟨"blood_pressure_systolic", 90, 140, 100, 120, 70, 180⟩,
    ⟨"blood_pressure_diastolic", 60, 90, 70, 80, 40, 120⟩],
   [], [], [], [], 0⟩

/-- The C5 witness store, diastolic readings first. -/
def dbBP2 : DB :=
  ⟨[⟨"u", "blood_pressure_diastolic", 65, 0⟩,
    ⟨"u", "blood_pressure_systolic", 95, 0⟩],
   [⟨"blood_pressure_systolic", 90, 140, 100, 120, 70, 180⟩,
    ⟨"blood_pressure_diastolic", 60, 90, 70, 80, 40, 120⟩],
   [], [], [], [], 0⟩

/-- The calculator result on `dbBP`. -/
def rBP : CalcResult :=
  ⟨⟨0, .morning_briefing,
    [("blood_pressure", .bp 1 .normal (some 95) (some 65))], [], []⟩,
   2, ["blood_pressure_systolic", "blood_pressure_diastolic"],
   false, false, .good⟩

/-- The calculator result on `dbBP2`. -/
def rBP2 : CalcResult :=
  ⟨⟨0, .morning_briefing,
    [("blood_pressure", .bp 1 .normal (some 95) (some 65))], [], []⟩,
   2, ["blood_pressure_diastolic", "blood_pressure_systolic"],
   false, false, .good⟩

/-- Witness for C5 on the concrete stores `dbBP` and `dbBP2`. -/
theorem claim5_witness :
    dictFind rBP.summary_data.metrics "blood_pressure" =
      some (.bp ([(95 : ℚ)] : List ℚ).length
        (statusForValue dbBP "blood_pressure_systolic"
          (([(95 : ℚ)] : List ℚ).sum / (([(95 : ℚ)] : List ℚ).length : ℚ)))
        (some (round2 (([(95 : ℚ)] : List ℚ).sum /
          (([(95 : ℚ)] : List ℚ).length : ℚ))))
        (some (round2 (([(65 : ℚ)] : List ℚ).sum /
          (([(65 : ℚ)] : List ℚ).length : ℚ)))))
  ∧ dictFind rBP2.summary_data.metrics "blood_pressure" =
      some (.bp ([(65 : ℚ)] : List ℚ).length
        (statusForValue dbBP2 "blood_pressure_diastolic"
          (([(65 : ℚ)] : List ℚ).sum / (([(65 : ℚ)] : List ℚ).length : ℚ)))
        (some (round2 (([(95 : ℚ)] : List ℚ).sum /
          (([(95 : ℚ)] : List ℚ).length : ℚ))))
        (some (round2 (([(65 : ℚ)] : List ℚ).sum /
          (([(65 : ℚ)] : List ℚ).length : ℚ))))) :=
  claim5_amended "u" 0 .morning_briefing dbBP dbBP2 [(95 : ℚ)] [(65 : ℚ)]
    rBP rBP2 (by decide) (by decide)
    (by with_unfolding_all rfl) (by with_unfolding_all rfl)
    (by with_unfolding_all rfl) (by with_unfolding_all rfl)
